import Mathlib

/-!
Verification of the `TypeSafeStore` wrapper (src/lib/TypeSafeStore.ts), a typed
convenience layer over the expo-secure-store key/value backend.

The backend (expo-secure-store), the JSON codec (JSON.parse / JSON.stringify) and
the schema validator (zod) are external collaborators of the wrapper: the backend
is modelled as a partial map from string keys to string values, the JSON codec as
a pair of functions `jsonParse : String → Option Value` (None models a parse
exception) and `jsonStringify : Value → String`, and a schema as a function
`Value → Option α` (mirroring zod's safeParse: `some` is success carrying the
validated data, `none` is failure).  JavaScript runtime values that can flow
through the wrapper are modelled by the inductive type `Value`.
-/

namespace TypeSafeStore

/-- Model of JavaScript runtime values relevant to the store: the three
primitives the source special-cases (string, number, boolean) plus the
structured values (null, arrays, objects) that go through JSON encoding. -/
inductive Value where
  | vStr : String → Value
  | vNum : Int → Value
  | vBool : Bool → Value
  | vNull : Value
  | vArr : List Value → Value
  | vObj : List (String × Value) → Value

/-- Model of the expo-secure-store backend contents: a partial map from backend
keys to stored strings (`SecureStore.getItem` returns string | null). -/
abbrev Backend := String → Option String

/-- Model of `SecureStore.setItem(k, v)`: the backend afterwards. -/
def setItem (b : Backend) (k v : String) : Backend :=
  fun q => if q = k then some v else b q

/-- Model of `SecureStore.deleteItemAsync(k)` when it completes: the backend
afterwards. -/
def deleteItem (b : Backend) (k : String) : Backend :=
  fun q => if q = k then none else b q

/-- Source: `getNamespacedKey(key)` returns `` `${this.namespace}:${key}` `` when
`this.namespace` is truthy and the bare `key` otherwise.  The JavaScript
truthiness test is falsy both for an unset namespace and for the empty string,
which the `isEmpty` test mirrors. -/
def getNamespacedKey (ns : Option String) (key : String) : String :=
  match ns with
  | some s => if s.isEmpty then key else s ++ ":" ++ key
  | none => key

/-- Source: `isValidJson(value)` returns true iff `JSON.parse(value)` does not
throw; a parse exception is modelled by `jsonParse` returning `none`. -/
def isValidJson (jsonParse : String → Option Value) (s : String) : Bool :=
  match jsonParse s with
  | some _ => true
  | none => false

/-- Source: `typeof value === 'string' || typeof value === 'number' ||
typeof value === 'boolean'` (the `isPrimitive` test inside `setFn`). -/
def isPrimitive : Value → Bool
  | .vStr _ => true
  | .vNum _ => true
  | .vBool _ => true
  | _ => false

/-- Source: `isPrimitive ? String(value) : JSON.stringify(value)` inside `setFn`.
`String(v)` on the three primitives is the string itself, the decimal rendering
of the number, and "true"/"false"; everything else goes to the external
JSON.stringify collaborator. -/
def serializeValue (jsonStringify : Value → String) : Value → String
  | .vStr s => s
  | .vNum n => toString n
  | .vBool c => cond c "true" "false"
  | v => jsonStringify v

/-- Source: `setFn(key, value)` returns the pair of namespaced key and
serialized value that the write paths hand to the backend. -/
def setFn (jsonStringify : Value → String) (ns : Option String) (key : String)
    (v : Value) : String × String :=
  (getNamespacedKey ns key, serializeValue jsonStringify v)

/-- Source: `set(key, value)` stores `setFn`'s pair via `SecureStore.setItem`
and returns true.  The result is the backend afterwards together with the
boolean return value. -/
def set (b : Backend) (jsonStringify : Value → String) (ns : Option String)
    (key : String) (v : Value) : Backend × Bool :=
  let toStore := setFn jsonStringify ns key v
  (setItem b toStore.1 toStore.2, true)

/-- Source: `setAsync(key, value)` performs the same write through
`SecureStore.setItemAsync` and resolves to true; the suspension point has no
observable effect in the sequential model. -/
def setAsync (b : Backend) (jsonStringify : Value → String) (ns : Option String)
    (key : String) (v : Value) : Backend × Bool :=
  let toStore := setFn jsonStringify ns key v
  (setItem b toStore.1 toStore.2, true)

/-- Source: `get(key, fallback, schema)` reads the namespaced key; on null
returns the fallback; otherwise JSON-parses the item when `isValidJson` holds
and takes the raw string as candidate otherwise, then returns
`schema.safeParse(candidate).data` on success and the fallback on failure. -/
def get {α : Type} (b : Backend) (jsonParse : String → Option Value)
    (ns : Option String) (key : String) (fallback : α)
    (schema : Value → Option α) : α :=
  match b (getNamespacedKey ns key) with
  | none => fallback
  | some item =>
    match schema (if isValidJson jsonParse item
        then (jsonParse item).getD (.vStr item) else .vStr item) with
    | some r => r
    | none => fallback

/-- Source: `getAsync(key, fallback, schema)` is the same read through
`SecureStore.getItemAsync`. -/
def getAsync {α : Type} (b : Backend) (jsonParse : String → Option Value)
    (ns : Option String) (key : String) (fallback : α)
    (schema : Value → Option α) : α :=
  match b (getNamespacedKey ns key) with
  | none => fallback
  | some item =>
    match schema (if isValidJson jsonParse item
        then (jsonParse item).getD (.vStr item) else .vStr item) with
    | some r => r
    | none => fallback

/-- Candidate value the read paths hand to the schema for a stored item: the
JSON parse result when the item is valid JSON, the raw string otherwise. -/
def candidateOf (jsonParse : String → Option Value) (item : String) : Value :=
  match jsonParse item with
  | some w => w
  | none => .vStr item

/-- Source: `exists(key)` is `SecureStore.getItem(namespacedKey) !== null`
(named existsKey because `exists` is reserved in Lean). -/
def existsKey (b : Backend) (ns : Option String) (key : String) : Bool :=
  (b (getNamespacedKey ns key)).isSome

/-- Source: `existsAsync(key)` is the same presence check through
`SecureStore.getItemAsync`. -/
def existsAsync (b : Backend) (ns : Option String) (key : String) : Bool :=
  (b (getNamespacedKey ns key)).isSome

/-- One-shot deferred deletion scheduled by `setTimeout` in
`setWithExpiration`: the backend key to delete and the delay in milliseconds. -/
structure TimerTask where
  key : String
  delayMillis : Nat
deriving DecidableEq

/-- Source: `setWithExpiration(key, value, ttl)` writes `setFn`'s pair via
`setItemAsync`, then schedules `deleteItemAsync(toStore.key)` after `ttl`
milliseconds.  The result is the backend right after the write together with
the scheduled timer task. -/
def setWithExpiration (b : Backend) (jsonStringify : Value → String)
    (ns : Option String) (key : String) (v : Value) (ttl : Nat) :
    Backend × TimerTask :=
  let toStore := setFn jsonStringify ns key v
  (setItem b toStore.1 toStore.2, ⟨toStore.1, ttl⟩)

/-- Firing of a scheduled timer task: the deferred callback runs
`SecureStore.deleteItemAsync` on the captured backend key. -/
def runTimerTask (b : Backend) (t : TimerTask) : Backend :=
  deleteItem b t.key

/-- Source: `removeAsync(key, options)` calls
`SecureStore.deleteItemAsync(namespacedKey, options)` inside try/catch and
returns true when the call completes, false when it raises.  The backend's
fallible delete is modelled as a function to `Except`: `ok` carries the backend
afterwards, `error` models a raised exception. -/
def removeAsync {Opts : Type} (deleteItemAsync : String → Option Opts → Except String Backend)
    (ns : Option String) (key : String) (options : Option Opts) : Bool :=
  match deleteItemAsync (getNamespacedKey ns key) options with
  | .ok _ => true
  | .error _ => false

/-- A delete behaviour in which `deleteItemAsync` always completes, removing
the key from the backend (deleting a missing key is non-fatal). -/
def normalDeleteBehavior (b : Backend) : String → Option PUnit → Except String Backend :=
  fun k _ => .ok (deleteItem b k)

/-- JavaScript argument values that can reach `setNamespace` at runtime
(the TypeScript annotation does not prevent non-string arguments). -/
inductive JsArg where
  | jstr : String → JsArg
  | jnum : Int → JsArg
  | jbool : Bool → JsArg
  | jundefined : JsArg
deriving DecidableEq

/-- Model of the JavaScript test `typeof arg === 'string'`. -/
def typeofIsString : JsArg → Bool
  | .jstr _ => true
  | _ => false

/-- Source: `setNamespace(namespace)` assigns and returns true when
`typeof namespace === 'string'`, otherwise returns false leaving the field
unchanged.  The result is the boolean return value together with the namespace
field afterwards. -/
def setNamespace (current : Option String) (arg : JsArg) : Bool × Option String :=
  match arg with
  | .jstr s => (true, some s)
  | _ => (false, current)

/-- Source: `getNamespace()` returns the namespace field, possibly undefined. -/
def getNamespace (ns : Option String) : Option String := ns

/-- Source: the constructor runs `if (namespace) this.namespace = namespace`,
so a falsy argument (absent or the empty string) leaves the field unset. -/
def mkStore (ns : Option String) : Option String :=
  match ns with
  | some s => if s.isEmpty then none else some s
  | none => none

/-- Return-value domain of the biometric-capability method: either a boolean
(the capability answer) or an unapplied function reference. -/
inductive BiometricReturn where
  | boolVal : Bool → BiometricReturn
  | funcRef : BiometricReturn
deriving DecidableEq

/-- Source: `canUseBiometricAuthentication()` executes
`return SecureStore.canUseBiometricAuthentication;` — it returns the backend's
function itself without invoking it, so the device's boolean answer
(`deviceAnswer`, what the function would return if called) never influences the
returned value. -/
def canUseBiometricAuthentication (_deviceAnswer : Bool) : BiometricReturn :=
  .funcRef

/-- Modelled from the spec: a passthrough capability probe would call the
backend check and return its boolean answer. -/
def canUseBiometricAuthenticationSpec (deviceAnswer : Bool) : BiometricReturn :=
  .boolVal deviceAnswer

/-! Concrete collaborator instances used by witnesses and counterexamples. -/

/-- An empty backend: no key is present. -/
def emptyBackend : Backend := fun _ => none

/-- A backend holding exactly the entry "n:k" ↦ "t". -/
def demoBackend : Backend := fun q => if q = "n:k" then some "t" else none

/-- A JSON parse that fails on every input (adequate for runs that only parse
strings that are not valid JSON, such as "t"). -/
def noParse : String → Option Value := fun _ => none

/-- Model of the zod string schema z.string(): safeParse succeeds exactly on
string candidates and returns them unchanged. -/
def stringSchema : Value → Option Value
  | .vStr s => some (.vStr s)
  | _ => none

/-- Model of a zod schema accepting exactly null. -/
def nullSchema : Value → Option Value
  | .vNull => some .vNull
  | _ => none

/-- Schema matching the typeof of a primitive value: z.string() for strings,
z.number() for numbers, z.boolean() for booleans; safeParse succeeds exactly on
candidates of that type and returns them unchanged.  Coercion (z.coerce) is not
needed in the model because JSON-parsing the stored text already recovers a
typed candidate.  Non-primitive values get the everywhere-failing schema; the
claim supplies no schema for them. -/
def schemaForTypeof : Value → Value → Option Value
  | .vStr _ => fun x => match x with | .vStr t => some (.vStr t) | _ => none
  | .vNum _ => fun x => match x with | .vNum m => some (.vNum m) | _ => none
  | .vBool _ => fun x => match x with | .vBool c => some (.vBool c) | _ => none
  | _ => fun _ => none

/-- A JSON parse agreeing with JSON.parse on the one string the C2
counterexample run parses: JSON.parse("5") yields the number 5. -/
def cexParse : String → Option Value :=
  fun s => if s = "5" then some (.vNum 5) else none

/-- A JSON parse recognizing exactly the boolean literals, as JSON.parse does
on "true" and "false". -/
def boolParse : String → Option Value :=
  fun s =>
    if s = "true" then some (.vBool true)
    else if s = "false" then some (.vBool false)
    else none

/-- A JSON stringify/parse pair adequate for runs that only serialize null:
JSON.stringify(null) is "null" and JSON.parse("null") is null. -/
def nullStringify : Value → String := fun _ => "null"

/-- Parse side of the null codec pair. -/
def nullParse : String → Option Value :=
  fun s => if s = "null" then some .vNull else none

/-- Standard JSON.parse facts about the stored text of a primitive value:
numerals parse back to the number, boolean literals to the boolean, and — the
amended C2 side condition — the string value's own text is not valid JSON.
False on non-primitives. -/
def PrimitiveParseOk (jsonParse : String → Option Value) : Value → Prop
  | .vStr s => jsonParse s = none
  | .vNum n => jsonParse (toString n) = some (.vNum n)
  | .vBool c => jsonParse (cond c "true" "false") = some (.vBool c)
  | _ => False

/-! Claim theorems. -/

/-- The branch on isValidJson inside the read paths computes exactly the
candidate of the stored item. -/
theorem parsed_eq_candidateOf (jsonParse : String → Option Value) (item : String) :
    (if isValidJson jsonParse item then (jsonParse item).getD (.vStr item)
      else .vStr item) = candidateOf jsonParse item := by
  unfold isValidJson candidateOf
  cases h : jsonParse item <;> simp [h]

/-- C1: get (and getAsync) returns the fallback when the namespaced key is
absent from the backend; when present, the stored string is JSON-parsed if it
is valid JSON and otherwise taken as the raw string candidate, the candidate is
validated against the schema, and the validated value is returned on validation
success, the fallback otherwise — validation failure surfaces no error, both
reads being total functions into the result type. -/
theorem C1_get_contract {α : Type} (b : Backend) (jsonParse : String → Option Value)
    (ns : Option String) (key : String) (fallback : α) (schema : Value → Option α) :
    (b (getNamespacedKey ns key) = none →
      get b jsonParse ns key fallback schema = fallback ∧
      getAsync b jsonParse ns key fallback schema = fallback) ∧
    (∀ item, b (getNamespacedKey ns key) = some item →
      (∀ r, schema (candidateOf jsonParse item) = some r →
        get b jsonParse ns key fallback schema = r ∧
        getAsync b jsonParse ns key fallback schema = r) ∧
      (schema (candidateOf jsonParse item) = none →
        get b jsonParse ns key fallback schema = fallback ∧
        getAsync b jsonParse ns key fallback schema = fallback)) := by
  constructor
  · intro h
    constructor <;> simp [get, getAsync, h]
  · intro item h
    constructor
    · intro r hr
      constructor <;> simp [get, getAsync, h, parsed_eq_candidateOf, hr]
    · intro hr
      constructor <;> simp [get, getAsync, h, parsed_eq_candidateOf, hr]

/-- C1 witness: on a backend holding "n:k" ↦ "t", with a parse failing on "t"
and the string schema, get returns the validated raw-string candidate. -/
theorem C1_get_contract_witness :
    demoBackend (getNamespacedKey (some "n") "k") = some "t" ∧
    stringSchema (candidateOf noParse "t") = some (Value.vStr "t") ∧
    get demoBackend noParse (some "n") "k" Value.vNull stringSchema = Value.vStr "t" := by
  refine ⟨rfl, rfl, ?_⟩
  exact (((C1_get_contract demoBackend noParse (some "n") "k" Value.vNull
    stringSchema).2 "t" rfl).1 (Value.vStr "t") rfl).1

/-- C2 counterexample: the primitive string value "5" does not survive the
set/get roundtrip with the typeof-matching (string) schema — its stored text
is valid JSON, JSON.parse turns it into the number 5, the string schema
rejects that, and get returns the fallback, contrary to the claim that every
primitive value comes back. -/
theorem C2_counterexample :
    serializeValue (fun _ => "") (Value.vStr "5") = "5" ∧
    cexParse "5" = some (Value.vNum 5) ∧
    get (set emptyBackend (fun _ => "") (some "n") "k" (Value.vStr "5")).1 cexParse
      (some "n") "k" (Value.vStr "fallback") (schemaForTypeof (Value.vStr "5")) =
      Value.vStr "fallback" ∧
    Value.vStr "fallback" ≠ Value.vStr "5" := by
  refine ⟨rfl, rfl, rfl, ?_⟩
  intro h
  exact absurd (Value.vStr.inj h) (by decide)

/-- C2 (amended): set(k, v) followed by get(k, fallback, schema matching
typeof v) returns v for every number and boolean (given JSON.parse's standard
behaviour on numerals and boolean literals) and for every string value whose
text is not valid JSON; string values whose text parses as JSON are excluded. -/
theorem C2_primitive_roundtrip (b : Backend) (jsonStringify : Value → String)
    (jsonParse : String → Option Value) (ns : Option String) (key : String)
    (fallback : Value) (v : Value) (hv : PrimitiveParseOk jsonParse v) :
    get (set b jsonStringify ns key v).1 jsonParse ns key fallback
      (schemaForTypeof v) = v := by
  cases v with
  | vStr s =>
    simp only [PrimitiveParseOk] at hv
    simp [get, set, setFn, setItem, serializeValue, isValidJson, schemaForTypeof, hv]
  | vNum n =>
    simp only [PrimitiveParseOk] at hv
    simp [get, set, setFn, setItem, serializeValue, isValidJson, schemaForTypeof, hv]
  | vBool c =>
    simp only [PrimitiveParseOk] at hv
    simp [get, set, setFn, setItem, serializeValue, isValidJson, schemaForTypeof, hv]
  | vNull => simp [PrimitiveParseOk] at hv
  | vArr l => simp [PrimitiveParseOk] at hv
  | vObj l => simp [PrimitiveParseOk] at hv

/-- C2 witness: the boolean true survives the roundtrip under the
boolean-literal parse. -/
theorem C2_primitive_roundtrip_witness :
    PrimitiveParseOk boolParse (Value.vBool true) ∧
    get (set emptyBackend (fun _ => "") (some "n") "k" (Value.vBool true)).1 boolParse
      (some "n") "k" Value.vNull (schemaForTypeof (Value.vBool true)) =
      Value.vBool true := by
  refine ⟨?_, ?_⟩
  · show boolParse "true" = some (Value.vBool true)
    rfl
  · exact C2_primitive_roundtrip emptyBackend (fun _ => "") boolParse (some "n") "k"
      Value.vNull (Value.vBool true) rfl

/-- C3: the method is not the passthrough capability probe the claim (and the
method's own doc comment) describes.  The source returns the backend function
`SecureStore.canUseBiometricAuthentication` without invoking it, so for every
device answer — in particular an answer of false — the returned value is the
function reference, never the boolean the probe would produce. -/
theorem C3_biometric_not_passthrough :
    (∀ deviceAnswer : Bool,
      canUseBiometricAuthentication deviceAnswer = BiometricReturn.funcRef) ∧
    canUseBiometricAuthenticationSpec false = BiometricReturn.boolVal false ∧
    canUseBiometricAuthentication false ≠ canUseBiometricAuthenticationSpec false := by
  refine ⟨fun _ => rfl, rfl, ?_⟩
  intro h
  exact BiometricReturn.noConfusion h

/-- C4: setNamespace returns true and installs the namespace exactly when the
argument is a string; on any non-string argument it returns false and
getNamespace afterwards agrees with getNamespace before. -/
theorem C4_setNamespace_contract (current : Option String) (arg : JsArg) :
    (∀ s, arg = JsArg.jstr s → setNamespace current arg = (true, some s)) ∧
    (typeofIsString arg = false →
      (setNamespace current arg).1 = false ∧
      getNamespace (setNamespace current arg).2 = getNamespace current) := by
  cases arg <;> simp [setNamespace, typeofIsString, getNamespace]

/-- C4 witness: setNamespace(123) on a store with namespace "n" returns false
and leaves getNamespace unchanged. -/
theorem C4_setNamespace_contract_witness :
    typeofIsString (JsArg.jnum 123) = false ∧
    (setNamespace (some "n") (JsArg.jnum 123)).1 = false ∧
    getNamespace (setNamespace (some "n") (JsArg.jnum 123)).2 =
      getNamespace (some "n") :=
  ⟨rfl, (C4_setNamespace_contract (some "n") (JsArg.jnum 123)).2 rfl⟩

/-- C5: for every structured (non-primitive) value v, when the JSON codec
round-trips v (`jsonParse (jsonStringify v) = some v`) and the schema accepts v
(safeParse succeeds returning v itself), set followed by get returns a value
equal — Lean equality on `Value` is deep equality — to v. -/
theorem C5_structured_roundtrip (b : Backend) (jsonStringify : Value → String)
    (jsonParse : String → Option Value) (ns : Option String) (key : String)
    (fallback : Value) (schema : Value → Option Value) (v : Value)
    (hprim : isPrimitive v = false)
    (hcodec : jsonParse (jsonStringify v) = some v)
    (hschema : schema v = some v) :
    get (set b jsonStringify ns key v).1 jsonParse ns key fallback schema = v := by
  have hser : serializeValue jsonStringify v = jsonStringify v := by
    cases v <;> first
      | rfl
      | simp [isPrimitive] at hprim
  simp [get, set, setFn, setItem, isValidJson, hser, hcodec, hschema]

/-- Helper: prefixing two different one-character namespaces onto the same
logical key yields different backend keys. -/
theorem a_b_prefixed_keys_ne (k : String) : ("a" ++ ":" ++ k) ≠ ("b" ++ ":" ++ k) := by
  intro h
  have hd : ('a' :: ':' :: k.data) = ('b' :: ':' :: k.data) := congrArg String.data h
  simp at hd

/-- C5 witness: the structured value null round-trips under the null codec and
the null schema. -/
theorem C5_structured_roundtrip_witness :
    isPrimitive Value.vNull = false ∧
    nullParse (nullStringify Value.vNull) = some Value.vNull ∧
    nullSchema Value.vNull = some Value.vNull ∧
    get (set emptyBackend nullStringify (some "n") "k" Value.vNull).1 nullParse
      (some "n") "k" (Value.vStr "fb") nullSchema = Value.vNull :=
  ⟨rfl, rfl, rfl,
    C5_structured_roundtrip emptyBackend nullStringify nullParse (some "n") "k"
      (Value.vStr "fb") nullSchema Value.vNull rfl rfl rfl⟩

/-- C6: stores with namespaces "a" and "b" map the same logical key to
distinct backend keys, and after a key is written only through the "a" store
(the "b" entry being absent beforehand), existsAsync on the "b" store is
false. -/
theorem C6_namespace_isolation (b : Backend) (jsonStringify : Value → String)
    (k : String) (v : Value)
    (hb : b (getNamespacedKey (some "b") k) = none) :
    getNamespacedKey (some "a") k ≠ getNamespacedKey (some "b") k ∧
    existsAsync (set b jsonStringify (some "a") k v).1 (some "b") k = false := by
  have hne : getNamespacedKey (some "a") k ≠ getNamespacedKey (some "b") k := by
    have h1 : getNamespacedKey (some "a") k = "a" ++ ":" ++ k := rfl
    have h2 : getNamespacedKey (some "b") k = "b" ++ ":" ++ k := rfl
    rw [h1, h2]
    exact a_b_prefixed_keys_ne k
  refine ⟨hne, ?_⟩
  simp only [existsAsync, set, setFn, setItem]
  rw [if_neg (fun h => hne h.symm), hb]
  rfl

/-- C6 witness: on an empty backend, writing "k" through the "a" store leaves
existsAsync of "k" on the "b" store false. -/
theorem C6_namespace_isolation_witness :
    emptyBackend (getNamespacedKey (some "b") "k") = none ∧
    existsAsync (set emptyBackend (fun _ => "") (some "a") "k" (Value.vStr "x")).1
      (some "b") "k" = false :=
  ⟨rfl, (C6_namespace_isolation emptyBackend (fun _ => "") "k" (Value.vStr "x") rfl).2⟩

/-- C7: setWithExpiration writes the serialized value to the namespaced key
and schedules a one-shot deletion of exactly that backend key with the given
ttl delay; right after the write existsAsync is true, and after the deferred
deletion has run existsAsync is false.  Reads never consult the ttl: in the
model they are functions of the backend contents alone. -/
theorem C7_setWithExpiration_contract (b : Backend) (jsonStringify : Value → String)
    (ns : Option String) (key : String) (v : Value) (ttl : Nat) :
    (setWithExpiration b jsonStringify ns key v ttl).1 (getNamespacedKey ns key) =
      some (serializeValue jsonStringify v) ∧
    existsAsync (setWithExpiration b jsonStringify ns key v ttl).1 ns key = true ∧
    (setWithExpiration b jsonStringify ns key v ttl).2 =
      ⟨getNamespacedKey ns key, ttl⟩ ∧
    existsAsync (runTimerTask (setWithExpiration b jsonStringify ns key v ttl).1
      (setWithExpiration b jsonStringify ns key v ttl).2) ns key = false := by
  refine ⟨?_, ?_, rfl, ?_⟩ <;>
    simp [setWithExpiration, setFn, setItem, existsAsync, runTimerTask, deleteItem]

/-- C8: removeAsync deletes the namespaced key, returning true when the
backend delete completes and false exactly when it raises; under a backend for
which deletion always completes (deleting a missing key being non-fatal),
removeAsync returns true on any key, present or not. -/
theorem C8_removeAsync_contract {Opts : Type}
    (deleteItemAsync : String → Option Opts → Except String Backend)
    (ns : Option String) (key : String) (options : Option Opts) :
    (∀ b', deleteItemAsync (getNamespacedKey ns key) options = .ok b' →
      removeAsync deleteItemAsync ns key options = true) ∧
    (∀ e, deleteItemAsync (getNamespacedKey ns key) options = .error e →
      removeAsync deleteItemAsync ns key options = false) ∧
    (∀ (b : Backend) (o : Option PUnit),
      removeAsync (normalDeleteBehavior b) ns key o = true) := by
  refine ⟨?_, ?_, ?_⟩
  · intro b' h
    simp [removeAsync, h]
  · intro e h
    simp [removeAsync, h]
  · intro b o
    simp [removeAsync, normalDeleteBehavior]

/-- C8 witness: removing the missing key "k" under the always-completing
delete behaviour on an empty backend returns true. -/
theorem C8_removeAsync_contract_witness :
    normalDeleteBehavior emptyBackend (getNamespacedKey (some "n") "k") none =
      Except.ok (deleteItem emptyBackend (getNamespacedKey (some "n") "k")) ∧
    removeAsync (normalDeleteBehavior emptyBackend) (some "n") "k" none = true :=
  ⟨rfl, (C8_removeAsync_contract (normalDeleteBehavior emptyBackend)
    (some "n") "k" none).1 (deleteItem emptyBackend (getNamespacedKey (some "n") "k")) rfl⟩

/-- C9: setNamespace("") succeeds returning true and installs the empty
namespace, yet key formation with namespace "" is identical to key formation
with no namespace (JavaScript truthiness treats "" as falsy), the constructor
given "" leaves the namespace unset, and a write through an ""-namespaced
store is visible to the un-namespaced store on the same logical key. -/
theorem C9_empty_namespace_collapses (current : Option String) :
    setNamespace current (JsArg.jstr "") = (true, some "") ∧
    (∀ k : String, getNamespacedKey (some "") k = getNamespacedKey none k) ∧
    mkStore (some "") = none ∧
    (∀ (b : Backend) (jsonStringify : Value → String) (k : String) (v : Value),
      existsAsync (set b jsonStringify (some "") k v).1 none k = true) := by
  refine ⟨rfl, fun k => rfl, rfl, ?_⟩
  intro b jsonStringify k v
  have hk : getNamespacedKey (some "") k = k := rfl
  have hk2 : getNamespacedKey none k = k := rfl
  simp only [existsAsync, set, setFn, setItem, hk, hk2]
  simp only [if_true, Option.isSome_some]

/-- C10: the map from (namespace, logical key) to backend key is not
injective once logical keys may contain the separator — namespace "a" with key
"b:k" and namespace "a:b" with key "k" produce the same backend key, the two
store/key pairs being distinct, so a write through the first store is seen (by
existsAsync and by get) through the second. -/
theorem C10_namespaced_key_collision :
    getNamespacedKey (some "a") "b:k" = getNamespacedKey (some "a:b") "k" ∧
    ¬(("a" : String) = "a:b" ∧ ("b:k" : String) = "k") ∧
    (∀ (b : Backend) (jsonStringify : Value → String) (v : Value),
      existsAsync (set b jsonStringify (some "a") "b:k" v).1 (some "a:b") "k" = true) ∧
    get (set emptyBackend (fun _ => "") (some "a") "b:k" (Value.vStr "x")).1 noParse
      (some "a:b") "k" Value.vNull stringSchema = Value.vStr "x" := by
  refine ⟨rfl, by decide, fun b jsonStringify v => rfl, rfl⟩

end TypeSafeStore
